import Mathlib

/-!
Shallow embedding of the caching HTTP proxy in
`src/proxy_server/HTTP_ProxyServer.py`.

Byte strings (Python `str`/`bytes` values flowing through the handler) are
modelled as `List Char`.  Effectful calls are modelled as explicit oracles:

* `cache : Bytes → Option Bytes` — the cache directory: `cache k = some v`
  iff a file named `k` exists with contents `v` (`os.path.exists` /
  `open(...).read()`).
* `dns : Bytes → Option Bytes` — `socket.gethostbyname`; `none` models
  `socket.gaierror`.
* `origin : Bytes → Bytes` — a successful connect/sendall/recv-loop against
  the origin: given the full outbound request bytes, returns the bytes read
  until the origin closes.
* `cacheWriteOk : Bool` — whether `open(cache_file, "wb").write(response)`
  succeeds; on failure the exception propagates to the generic handler,
  which sends `HTTP/1.1 500 Internal Server Error`.

The result of one `handle_client` invocation records every payload sent to
the client, every DNS resolution attempted, every outbound request sent to
an origin, every cache-existence lookup, and every cache write performed.
-/

namespace ProxyModel

/-- Byte strings of the Python program, modelled as lists of characters. -/
abbrev Bytes := List Char

/-- Coerce a Lean string literal to the `Bytes` model. -/
def str (s : String) : Bytes := s.data

/-- The CRLF line terminator `"\r\n"`. -/
def crlf : Bytes := str "\r\n"

/-- Split a list at every character satisfying `p`, keeping empty pieces
(the behaviour of Python `str.split(ch)` generalised to a predicate). -/
def splitIf (p : Char → Bool) : Bytes → List Bytes
  | [] => [[]]
  | c :: rest =>
      let r := splitIf p rest
      if p c then [] :: r
      else
        match r with
        | [] => [[c]]
        | t :: ts => (c :: t) :: ts

/-- Python whitespace characters recognised by `str.split()` with no
argument (space, tab, newline, carriage return, vertical tab, form feed). -/
def pyIsSpace (c : Char) : Bool :=
  c = ' ' || c = '\t' || c = '\n' || c = '\r' || c = Char.ofNat 11 || c = Char.ofNat 12

/-- Python `str.split()` with no separator: split on whitespace runs and
drop empty tokens.  Used for `first_line.split()` (line 45 of the source). -/
def pySplitWs (cs : Bytes) : List Bytes :=
  (splitIf pyIsSpace cs).filter (fun t => t ≠ [])

/-- Fuelled worker for `splitOnSep`; consumes at least one character per
unit of fuel, so `fuel = cs.length` always suffices. -/
def splitOnFuel (sep : Bytes) : Nat → Bytes → Bytes → List Bytes
  | _, [], acc => [acc.reverse]
  | 0, cs, acc => [acc.reverse ++ cs]
  | n + 1, c :: cs, acc =>
      if sep ≠ [] ∧ sep.isPrefixOf (c :: cs) then
        acc.reverse :: splitOnFuel sep n ((c :: cs).drop sep.length) []
      else
        splitOnFuel sep n cs (c :: acc)

/-- Python `str.split(sep)` for a non-empty separator: split at every
non-overlapping occurrence of `sep`, left to right, keeping empty pieces.
Used for `request.split("\r\n")` (line 37) and for locating the
`"\r\n\r\n"` body boundary (line 131). -/
def splitOnSep (sep cs : Bytes) : List Bytes :=
  splitOnFuel sep cs.length cs []

/-- Python `pat in s` substring test (line 65: `"://" in url`). -/
def hasSubstr (pat : Bytes) : Bytes → Bool
  | [] => pat.isEmpty
  | c :: cs => pat.isPrefixOf (c :: cs) || hasSubstr pat cs

/-- Python `s.startswith(pre)`. -/
def startsWithB (pre s : Bytes) : Bool := pre.isPrefixOf s

/-- Replace every occurrence of the character `a` by `b` (Python
`s.replace(a, b)` for one-character arguments). -/
def replaceChar (a b : Char) (cs : Bytes) : Bytes :=
  cs.map (fun c => if c = a then b else c)

/-- `sanitize_filename` (source lines 20–21): successively replace `/`,
`?` and `:` by `_`. -/
def sanitize_filename (url : Bytes) : Bytes :=
  replaceChar ':' '_' (replaceChar '?' '_' (replaceChar '/' '_' url))

/-- Python `str.lower()` restricted to ASCII (sufficient for the
`proxy-connection` / `connection` prefix checks on line 117). -/
def lowerB (cs : Bytes) : Bytes := cs.map Char.toLower

/-- Python `str.upper()` restricted to ASCII (`method.upper()`, lines 83,
130, 148). -/
def upperB (cs : Bytes) : Bytes := cs.map Char.toUpper

/-- Characters allowed in a URL scheme after the leading letter
(`urllib.parse.scheme_chars`). -/
def schemeChar (c : Char) : Bool :=
  c.isAlpha || c.isDigit || c = '+' || c = '-' || c = '.'

/-- The scheme/rest split performed by `urllib.parse.urlsplit`: if the text
before the first `:` is a non-empty ASCII-letter-initial run of scheme
characters, it is the scheme and parsing continues after the colon;
otherwise no scheme is recognised. -/
def splitScheme (url : Bytes) : Bytes × Bytes :=
  let before := url.takeWhile (fun c => c ≠ ':')
  let rest := url.dropWhile (fun c => c ≠ ':')
  match rest with
  | ':' :: after =>
      match before with
      | [] => ([], url)
      | c :: _ => if c.isAlpha && before.all schemeChar then (before, after) else ([], url)
  | _ => ([], url)

/-- The netloc split of `urllib.parse.urlsplit`: when the remainder starts
with `//`, the authority extends to the first `/`, `?` or `#`. -/
def splitNetloc (rest : Bytes) : Bytes × Bytes :=
  match rest with
  | '/' :: '/' :: r =>
      (r.takeWhile (fun c => c ≠ '/' ∧ c ≠ '?' ∧ c ≠ '#'),
       r.dropWhile (fun c => c ≠ '/' ∧ c ≠ '?' ∧ c ≠ '#'))
  | _ => ([], rest)

/-- Drop a `;params` suffix from the last path segment, as
`urllib.parse.urlparse._splitparams` does.  (The Python library applies
this only for schemes in its `uses_params` list, which contains both
`http` and the empty scheme — the only ones reachable here.) -/
def splitParams (path : Bytes) : Bytes :=
  if path.contains '/' then
    let lastSeg := (path.reverse.takeWhile (fun c => c ≠ '/')).reverse
    if lastSeg.contains ';' then
      path.take (path.length - lastSeg.length) ++ lastSeg.takeWhile (fun c => c ≠ ';')
    else path
  else path.takeWhile (fun c => c ≠ ';')

/-- The `netloc`/`path` components of `urllib.parse.urlparse` (the only
components the proxy reads, lines 65–69). -/
structure UrlParts where
  netloc : Bytes
  path : Bytes
deriving Repr, DecidableEq

/-- Model of `urllib.parse.urlparse` restricted to the `netloc` and `path`
fields: strip the scheme, take the `//`-authority up to `/?#`, drop any
fragment and query from the remainder, and drop path params. -/
def urlparse (url : Bytes) : UrlParts :=
  let rest := (splitScheme url).2
  let nr := splitNetloc rest
  let p := (nr.2.takeWhile (fun c => c ≠ '#')).takeWhile (fun c => c ≠ '?')
  let p := if p.contains ';' then splitParams p else p
  { netloc := nr.1, path := p }

/-- Lines 60–61: remove a single leading `/` from the request target when
present (browser-prepended slash). -/
def stripSlash (url0 : Bytes) : Bytes :=
  if startsWithB (str "/") url0 then url0.drop 1 else url0

/-- Line 65: default the scheme to `http` when the target has no `://`,
then parse. -/
def resolveUrl (url : Bytes) : UrlParts :=
  urlparse (if hasSubstr (str "://") url then url else str "http://" ++ url)

/-- The origin host of a (slash-stripped) target: `parsed.netloc`
(line 67). -/
def resolvedHost (url : Bytes) : Bytes := (resolveUrl url).netloc

/-- The origin path of a (slash-stripped) target: `parsed.path`, defaulted
to `/` when empty (lines 69–72). -/
def resolvedPath (url : Bytes) : Bytes :=
  if (resolveUrl url).path = [] then str "/" else (resolveUrl url).path

/-- Line 117: a header line is forwarded unless it case-insensitively
starts with `proxy-connection` or `connection`. -/
def keepHeader (h : Bytes) : Bool :=
  !(startsWithB (str "proxy-connection") (lowerB h)
    || startsWithB (str "connection") (lowerB h))

/-- The bytes following the first `"\r\n\r\n"` of the raw request
(`request[body_index + 4:]`, lines 131–133); empty when no such boundary
exists (`find` returned `-1`). -/
def postBodyOf (request : Bytes) : Bytes :=
  match splitOnSep (str "\r\n\r\n") request with
  | _ :: b :: rest => List.intercalate (str "\r\n\r\n") (b :: rest)
  | _ => []

/-- Lines 113–134: the full outbound request.  The request line is
`f"{method} {path} HTTP/1.1\r\n"`; the inbound header lines are folded
left-to-right, dropping connection-management headers; `Host`,
`Connection: close` and the fixed `User-Agent` are appended; a blank line
terminates the head; for POST the bytes after the first CRLFCRLF of the
raw request are appended. -/
def buildOutbound (method path host : Bytes) (headers : List Bytes) (request : Bytes) : Bytes :=
  let request_line := method ++ str " " ++ path ++ str " HTTP/1.1\r\n"
  let forward_headers :=
    headers.foldl (fun acc h => if keepHeader h then acc ++ h ++ crlf else acc) []
  let forward_headers := forward_headers
    ++ str "Host: " ++ host ++ crlf
    ++ str "Connection: close\r\n"
    ++ str "User-Agent: PythonProxy/1.0\r\n"
  let base := request_line ++ forward_headers ++ crlf
  if upperB method = str "POST" then base ++ postBodyOf request else base

/-- Lines 90–92: a cached body that does not start with `HTTP/` is wrapped
with a synthesised minimal response head before replay. -/
def serveCached (stored : Bytes) : Bytes :=
  if startsWithB (str "HTTP/") stored then stored
  else str "HTTP/1.0 200 OK\r\nContent-Type: text/html\r\n\r\n" ++ stored

/-- Line 50. -/
def BAD_REQUEST : Bytes := str "HTTP/1.1 400 Bad Request\r\n\r\n"

/-- Line 105. -/
def BAD_GATEWAY : Bytes := str "HTTP/1.1 502 Bad Gateway\r\n\r\n"

/-- Line 160. -/
def SERVER_ERROR : Bytes := str "HTTP/1.1 500 Internal Server Error\r\n\r\n"

/-- Observable effects of one `handle_client` invocation. -/
structure HandleResult where
  /-- Payloads passed to `client_sock.sendall`, in order. -/
  toClient : List Bytes
  /-- Hostnames passed to `socket.gethostbyname`, in order. -/
  dnsQueries : List Bytes
  /-- Outbound requests sent over a connection opened to an origin. -/
  originRequests : List Bytes
  /-- Cache keys probed with `os.path.exists`. -/
  cacheLookups : List Bytes
  /-- `(key, bytes)` pairs written to the cache. -/
  cacheWrites : List (Bytes × Bytes)
deriving Repr, DecidableEq

/-- The silent-close result (empty `recv`, or the dead `len(lines) == 0`
branch): nothing is sent and no effect is performed. -/
def silentClose : HandleResult :=
  { toClient := [], dnsQueries := [], originRequests := [],
    cacheLookups := [], cacheWrites := [] }

/-- The first CRLF-separated line of the raw request (line 43). -/
def firstLineOf (request : Bytes) : Bytes :=
  (splitOnSep crlf request).headD []

/-- Every CRLF-separated line after the first (`headers = lines[1:]`,
line 56). -/
def headerLinesOf (request : Bytes) : List Bytes :=
  (splitOnSep crlf request).tail

/-- Lines 60–165 of `handle_client`, after the request line has been split
into exactly `method`/`url0`/`protocol` tokens (the protocol token is
never used).  The scrutinee of the first match mirrors the short-circuit
`method.upper() == "GET" and os.path.exists(cache_file)` of line 83: the
cache is probed only for GET. -/
def handleParsed (method url0 request : Bytes) (cache : Bytes → Option Bytes)
    (dns : Bytes → Option Bytes) (origin : Bytes → Bytes) (cacheWriteOk : Bool) :
    HandleResult :=
  match (if upperB method = str "GET"
         then cache (sanitize_filename (stripSlash url0)) else none) with
  | some stored =>
      { toClient := [serveCached stored], dnsQueries := [], originRequests := [],
        cacheLookups := [sanitize_filename (stripSlash url0)], cacheWrites := [] }
  | none =>
      match dns (resolvedHost (stripSlash url0)) with
      | none =>
          { toClient := [BAD_GATEWAY],
            dnsQueries := [resolvedHost (stripSlash url0)],
            originRequests := [],
            cacheLookups := if upperB method = str "GET"
                            then [sanitize_filename (stripSlash url0)] else [],
            cacheWrites := [] }
      | some _ip =>
          let full_request := buildOutbound method (resolvedPath (stripSlash url0))
              (resolvedHost (stripSlash url0)) (headerLinesOf request) request
          let response := origin full_request
          if upperB method = str "GET" then
            if cacheWriteOk then
              { toClient := [response],
                dnsQueries := [resolvedHost (stripSlash url0)],
                originRequests := [full_request],
                cacheLookups := [sanitize_filename (stripSlash url0)],
                cacheWrites := [(sanitize_filename (stripSlash url0), response)] }
            else
              { toClient := [SERVER_ERROR],
                dnsQueries := [resolvedHost (stripSlash url0)],
                originRequests := [full_request],
                cacheLookups := [sanitize_filename (stripSlash url0)],
                cacheWrites := [] }
          else
            { toClient := [response],
              dnsQueries := [resolvedHost (stripSlash url0)],
              originRequests := [full_request],
              cacheLookups := [],
              cacheWrites := [] }

/-- `handle_client` (source lines 25–166) on one decoded request chunk:
empty input closes silently; a request line that does not split into
exactly three whitespace tokens draws `400 Bad Request`; otherwise the
request is dispatched to `handleParsed`. -/
def handle_client (request : Bytes) (cache : Bytes → Option Bytes)
    (dns : Bytes → Option Bytes) (origin : Bytes → Bytes) (cacheWriteOk : Bool) :
    HandleResult :=
  if request = [] then silentClose
  else if splitOnSep crlf request = [] then silentClose
  else
    match pySplitWs (firstLineOf request) with
    | [method, url0, _protocol] =>
        handleParsed method url0 request cache dns origin cacheWriteOk
    | _ =>
        { toClient := [BAD_REQUEST], dnsQueries := [], originRequests := [],
          cacheLookups := [], cacheWrites := [] }

/-- One client connection as driven by the accept loop: exactly one
`recv(8192)` is performed (line 30) and its result is handled. -/
def handle_conn (input : Bytes) (cache : Bytes → Option Bytes)
    (dns : Bytes → Option Bytes) (origin : Bytes → Bytes) (cacheWriteOk : Bool) :
    HandleResult :=
  handle_client (input.take 8192) cache dns origin cacheWriteOk

/-- Apply the cache writes of a finished invocation to the cache state
(each write truncates/overwrites the file for its key). -/
def applyWrites (cache : Bytes → Option Bytes) (ws : List (Bytes × Bytes)) :
    Bytes → Option Bytes :=
  ws.foldl (fun c kv => fun k => if k = kv.1 then some kv.2 else c k) cache

end ProxyModel

namespace ProxyModel

/-! ### Structural lemmas about the embedding -/

theorem splitOnFuel_ne_nil (sep : Bytes) (n : Nat) (cs acc : Bytes) :
    splitOnFuel sep n cs acc ≠ [] := by
  induction n generalizing cs acc with
  | zero => cases cs <;> simp [splitOnFuel]
  | succ n ih =>
      cases cs with
      | nil => simp [splitOnFuel]
      | cons c cs' =>
          rw [splitOnFuel]
          split
          · simp
          · exact ih cs' (c :: acc)

theorem splitOnSep_ne_nil (sep cs : Bytes) : splitOnSep sep cs ≠ [] :=
  splitOnFuel_ne_nil sep cs.length cs []

/-- Once the request line splits into exactly three tokens, `handle_client`
is `handleParsed` on the method and target tokens. -/
theorem handle_client_run (request : Bytes) (cache : Bytes → Option Bytes)
    (dns : Bytes → Option Bytes) (origin : Bytes → Bytes) (wk : Bool)
    (m u p : Bytes) (hreq : request ≠ [])
    (hp : pySplitWs (firstLineOf request) = [m, u, p]) :
    handle_client request cache dns origin wk = handleParsed m u request cache dns origin wk := by
  unfold handle_client
  rw [if_neg hreq, if_neg (splitOnSep_ne_nil crlf request), hp]

/-- Cache-hit branch of `handleParsed` (source lines 83–97). -/
theorem handleParsed_hit (m u0 request : Bytes) (cache : Bytes → Option Bytes)
    (dns : Bytes → Option Bytes) (origin : Bytes → Bytes) (wk : Bool) (stored : Bytes)
    (hGet : upperB m = str "GET")
    (hstore : cache (sanitize_filename (stripSlash u0)) = some stored) :
    handleParsed m u0 request cache dns origin wk =
      { toClient := [serveCached stored], dnsQueries := [], originRequests := [],
        cacheLookups := [sanitize_filename (stripSlash u0)], cacheWrites := [] } := by
  unfold handleParsed
  rw [if_pos hGet, hstore]

/-- DNS-failure branch of `handleParsed` (source lines 100–107). -/
theorem handleParsed_dns_fail (m u0 request : Bytes) (cache : Bytes → Option Bytes)
    (dns : Bytes → Option Bytes) (origin : Bytes → Bytes) (wk : Bool)
    (hmiss : (if upperB m = str "GET"
              then cache (sanitize_filename (stripSlash u0)) else none) = none)
    (hdns : dns (resolvedHost (stripSlash u0)) = none) :
    handleParsed m u0 request cache dns origin wk =
      { toClient := [BAD_GATEWAY], dnsQueries := [resolvedHost (stripSlash u0)],
        originRequests := [],
        cacheLookups := if upperB m = str "GET"
                        then [sanitize_filename (stripSlash u0)] else [],
        cacheWrites := [] } := by
  unfold handleParsed
  rw [hmiss, hdns]

/-- Forwarding branch for a GET with a working cache write (source lines
110–155). -/
theorem handleParsed_forward_get (m u0 request : Bytes) (cache : Bytes → Option Bytes)
    (dns : Bytes → Option Bytes) (origin : Bytes → Bytes) (ip : Bytes)
    (hGet : upperB m = str "GET")
    (hmiss : cache (sanitize_filename (stripSlash u0)) = none)
    (hdns : dns (resolvedHost (stripSlash u0)) = some ip) :
    handleParsed m u0 request cache dns origin true =
      { toClient := [origin (buildOutbound m (resolvedPath (stripSlash u0))
                      (resolvedHost (stripSlash u0)) (headerLinesOf request) request)],
        dnsQueries := [resolvedHost (stripSlash u0)],
        originRequests := [buildOutbound m (resolvedPath (stripSlash u0))
                      (resolvedHost (stripSlash u0)) (headerLinesOf request) request],
        cacheLookups := [sanitize_filename (stripSlash u0)],
        cacheWrites := [(sanitize_filename (stripSlash u0),
          origin (buildOutbound m (resolvedPath (stripSlash u0))
            (resolvedHost (stripSlash u0)) (headerLinesOf request) request))] } := by
  unfold handleParsed
  rw [if_pos hGet, hmiss, hdns]
  simp [hGet]

/-- Forwarding branch for a GET whose cache write fails: the exception
handler answers 500 (source lines 148–162). -/
theorem handleParsed_forward_get_wfail (m u0 request : Bytes) (cache : Bytes → Option Bytes)
    (dns : Bytes → Option Bytes) (origin : Bytes → Bytes) (ip : Bytes)
    (hGet : upperB m = str "GET")
    (hmiss : cache (sanitize_filename (stripSlash u0)) = none)
    (hdns : dns (resolvedHost (stripSlash u0)) = some ip) :
    handleParsed m u0 request cache dns origin false =
      { toClient := [SERVER_ERROR],
        dnsQueries := [resolvedHost (stripSlash u0)],
        originRequests := [buildOutbound m (resolvedPath (stripSlash u0))
                      (resolvedHost (stripSlash u0)) (headerLinesOf request) request],
        cacheLookups := [sanitize_filename (stripSlash u0)],
        cacheWrites := [] } := by
  unfold handleParsed
  rw [if_pos hGet, hmiss, hdns]
  simp [hGet]

/-- Forwarding branch for a non-GET method: no cache lookup, no cache
write (source lines 110–155). -/
theorem handleParsed_forward_nonget (m u0 request : Bytes) (cache : Bytes → Option Bytes)
    (dns : Bytes → Option Bytes) (origin : Bytes → Bytes) (wk : Bool) (ip : Bytes)
    (hnot : upperB m ≠ str "GET")
    (hdns : dns (resolvedHost (stripSlash u0)) = some ip) :
    handleParsed m u0 request cache dns origin wk =
      { toClient := [origin (buildOutbound m (resolvedPath (stripSlash u0))
                      (resolvedHost (stripSlash u0)) (headerLinesOf request) request)],
        dnsQueries := [resolvedHost (stripSlash u0)],
        originRequests := [buildOutbound m (resolvedPath (stripSlash u0))
                      (resolvedHost (stripSlash u0)) (headerLinesOf request) request],
        cacheLookups := [],
        cacheWrites := [] } := by
  unfold handleParsed
  rw [if_neg hnot, hdns]
  simp [hnot]

/-- The header fold of `buildOutbound` equals the concatenation of the
kept header lines, each terminated by CRLF. -/
theorem foldl_keep (hs : List Bytes) (acc : Bytes) :
    hs.foldl (fun acc h => if keepHeader h then acc ++ h ++ crlf else acc) acc
      = acc ++ ((hs.filter keepHeader).map (fun h => h ++ crlf)).flatten := by
  induction hs generalizing acc with
  | nil => simp
  | cons h t ih =>
      rw [List.foldl_cons, ih]
      by_cases hk : keepHeader h
      · simp [hk, List.append_assoc]
      · simp [hk]

end ProxyModel

namespace ProxyModel

/-! ### Claims -/

/-- C1: a GET request whose derived cache key has an existing cache entry
is served entirely from the cache — no DNS resolution and no origin
connection occur — and consequently a cache-miss GET followed by an
identical GET contacts the origin exactly once across the two requests
(the second call performs no DNS query and opens no origin connection). -/
theorem c1_cache_hit_serves_without_origin :
    (∀ (request : Bytes) (cache : Bytes → Option Bytes)
       (dns : Bytes → Option Bytes) (origin : Bytes → Bytes) (wk : Bool)
       (u p stored : Bytes),
       request ≠ [] →
       pySplitWs (firstLineOf request) = [str "GET", u, p] →
       cache (sanitize_filename (stripSlash u)) = some stored →
       (handle_client request cache dns origin wk).dnsQueries = [] ∧
       (handle_client request cache dns origin wk).originRequests = [] ∧
       (handle_client request cache dns origin wk).toClient = [serveCached stored]) ∧
    (∀ (request : Bytes) (cache : Bytes → Option Bytes)
       (dns : Bytes → Option Bytes) (origin : Bytes → Bytes) (u p ip : Bytes),
       request ≠ [] →
       pySplitWs (firstLineOf request) = [str "GET", u, p] →
       cache (sanitize_filename (stripSlash u)) = none →
       dns (resolvedHost (stripSlash u)) = some ip →
       (handle_client request cache dns origin true).originRequests.length +
         (handle_client request
           (applyWrites cache (handle_client request cache dns origin true).cacheWrites)
           dns origin true).originRequests.length = 1 ∧
       (handle_client request
           (applyWrites cache (handle_client request cache dns origin true).cacheWrites)
           dns origin true).dnsQueries = []) := by
  constructor
  · intro request cache dns origin wk u p stored hreq hp hstore
    rw [handle_client_run request cache dns origin wk _ u p hreq hp,
        handleParsed_hit _ u request cache dns origin wk stored (by decide) hstore]
    exact ⟨rfl, rfl, rfl⟩
  · intro request cache dns origin u p ip hreq hp hmiss hdns
    have hGet : upperB (str "GET") = str "GET" := by decide
    rw [handle_client_run request cache dns origin true _ u p hreq hp,
        handleParsed_forward_get _ u request cache dns origin ip hGet hmiss hdns]
    have hstore : applyWrites cache
        [(sanitize_filename (stripSlash u),
          origin (buildOutbound (str "GET") (resolvedPath (stripSlash u))
            (resolvedHost (stripSlash u)) (headerLinesOf request) request))]
        (sanitize_filename (stripSlash u)) =
        some (origin (buildOutbound (str "GET") (resolvedPath (stripSlash u))
            (resolvedHost (stripSlash u)) (headerLinesOf request) request)) := by
      simp [applyWrites]
    rw [handle_client_run request _ dns origin true _ u p hreq hp,
        handleParsed_hit _ u request _ dns origin true _ hGet hstore]
    exact ⟨rfl, rfl⟩

/-- C1 witness: a concrete hit is served with no origin traffic, and a
concrete miss followed by the identical request reaches the origin once. -/
theorem c1_witness :
    ((handle_client (str "GET http://h/p HTTP/1.1\r\n\r\n")
        (fun k => if k = str "http___h_p" then some (str "HTTP/1.0 200 OK\r\n\r\nhi") else none)
        (fun _ => some (str "1.2.3.4")) (fun _ => str "X") true).dnsQueries = [] ∧
     (handle_client (str "GET http://h/p HTTP/1.1\r\n\r\n")
        (fun k => if k = str "http___h_p" then some (str "HTTP/1.0 200 OK\r\n\r\nhi") else none)
        (fun _ => some (str "1.2.3.4")) (fun _ => str "X") true).originRequests = [] ∧
     (handle_client (str "GET http://h/p HTTP/1.1\r\n\r\n")
        (fun k => if k = str "http___h_p" then some (str "HTTP/1.0 200 OK\r\n\r\nhi") else none)
        (fun _ => some (str "1.2.3.4")) (fun _ => str "X") true).toClient
        = [serveCached (str "HTTP/1.0 200 OK\r\n\r\nhi")]) ∧
    ((handle_client (str "GET http://h/p HTTP/1.1\r\n\r\n") (fun _ => none)
        (fun _ => some (str "1.2.3.4")) (fun _ => str "X") true).originRequests.length +
     (handle_client (str "GET http://h/p HTTP/1.1\r\n\r\n")
        (applyWrites (fun _ => none)
          (handle_client (str "GET http://h/p HTTP/1.1\r\n\r\n") (fun _ => none)
            (fun _ => some (str "1.2.3.4")) (fun _ => str "X") true).cacheWrites)
        (fun _ => some (str "1.2.3.4")) (fun _ => str "X") true).originRequests.length = 1 ∧
     (handle_client (str "GET http://h/p HTTP/1.1\r\n\r\n")
        (applyWrites (fun _ => none)
          (handle_client (str "GET http://h/p HTTP/1.1\r\n\r\n") (fun _ => none)
            (fun _ => some (str "1.2.3.4")) (fun _ => str "X") true).cacheWrites)
        (fun _ => some (str "1.2.3.4")) (fun _ => str "X") true).dnsQueries = []) :=
  ⟨c1_cache_hit_serves_without_origin.1 (str "GET http://h/p HTTP/1.1\r\n\r\n")
      (fun k => if k = str "http___h_p" then some (str "HTTP/1.0 200 OK\r\n\r\nhi") else none)
      (fun _ => some (str "1.2.3.4")) (fun _ => str "X") true
      (str "http://h/p") (str "HTTP/1.1") (str "HTTP/1.0 200 OK\r\n\r\nhi")
      (by decide) (by decide) (by decide),
   c1_cache_hit_serves_without_origin.2 (str "GET http://h/p HTTP/1.1\r\n\r\n")
      (fun _ => none) (fun _ => some (str "1.2.3.4")) (fun _ => str "X")
      (str "http://h/p") (str "HTTP/1.1") (str "1.2.3.4")
      (by decide) (by decide) (by decide) (by decide)⟩

end ProxyModel

namespace ProxyModel

/-- C2 counterexample: for the request line target `/example.com/x`
(leading slash prepended by the client) the key actually used for both the
cache lookup and the cache write is `example.com_x`, the sanitisation of
the *slash-stripped* target, whereas sanitising the original, unmodified
target gives `_example.com_x`. -/
theorem c2_counterexample :
    (pySplitWs (firstLineOf (str "GET /example.com/x HTTP/1.1\r\n\r\n"))).getD 1 []
        = str "/example.com/x" ∧
    (handle_client (str "GET /example.com/x HTTP/1.1\r\n\r\n") (fun _ => none)
        (fun _ => some (str "1.2.3.4")) (fun _ => str "X") true).cacheLookups
        = [str "example.com_x"] ∧
    (handle_client (str "GET /example.com/x HTTP/1.1\r\n\r\n") (fun _ => none)
        (fun _ => some (str "1.2.3.4")) (fun _ => str "X") true).cacheWrites.map Prod.fst
        = [str "example.com_x"] ∧
    sanitize_filename (str "/example.com/x") = str "_example.com_x" ∧
    str "example.com_x" ≠ str "_example.com_x" := by decide

/-- C2 (amended): the cache key used for every lookup and every store is
the sanitise substitution applied to the request target *after* a single
leading `/` has been stripped (for targets without a leading slash this
coincides with the original target). -/
theorem c2_cache_key_from_stripped_target
    (request : Bytes) (cache : Bytes → Option Bytes) (dns : Bytes → Option Bytes)
    (origin : Bytes → Bytes) (wk : Bool) (m u p : Bytes)
    (hreq : request ≠ []) (hp : pySplitWs (firstLineOf request) = [m, u, p]) :
    (∀ k ∈ (handle_client request cache dns origin wk).cacheLookups,
        k = sanitize_filename (stripSlash u)) ∧
    (∀ kv ∈ (handle_client request cache dns origin wk).cacheWrites,
        kv.1 = sanitize_filename (stripSlash u)) := by
  rw [handle_client_run request cache dns origin wk m u p hreq hp]
  unfold handleParsed
  repeat' split
  all_goals simp_all

/-- C2 witness: the amended key law evaluated on a concrete request. -/
theorem c2_witness :
    str "example.com_x" = sanitize_filename (stripSlash (str "/example.com/x")) :=
  (c2_cache_key_from_stripped_target (str "GET /example.com/x HTTP/1.1\r\n\r\n")
      (fun _ => none) (fun _ => some (str "1.2.3.4")) (fun _ => str "X") true
      (str "GET") (str "/example.com/x") (str "HTTP/1.1")
      (by decide) (by decide)).1 (str "example.com_x") (by decide)

/-- C3: a request whose first line does not split into exactly three
whitespace-separated tokens draws exactly `HTTP/1.1 400 Bad Request` and
nothing else: no DNS query, no origin connection, no cache lookup, no
cache write. -/
theorem c3_malformed_line_yields_400
    (request : Bytes) (cache : Bytes → Option Bytes) (dns : Bytes → Option Bytes)
    (origin : Bytes → Bytes) (wk : Bool)
    (hreq : request ≠ [])
    (hlen : (pySplitWs (firstLineOf request)).length ≠ 3) :
    handle_client request cache dns origin wk =
      { toClient := [BAD_REQUEST], dnsQueries := [], originRequests := [],
        cacheLookups := [], cacheWrites := [] } := by
  unfold handle_client
  rw [if_neg hreq, if_neg (splitOnSep_ne_nil crlf request)]
  rcases h : pySplitWs (firstLineOf request) with _ | ⟨a, _ | ⟨b, _ | ⟨c, _ | ⟨d, t⟩⟩⟩⟩
  · rfl
  · rfl
  · rfl
  · exact absurd (by rw [h]; rfl) hlen
  · rfl

/-- C3 witness: the bare request line `GET` (one token) produces exactly
the 400 response with no side effects. -/
theorem c3_witness :
    handle_client (str "GET\r\n") (fun _ => none) (fun _ => none) (fun _ => []) true =
      { toClient := [BAD_REQUEST], dnsQueries := [], originRequests := [],
        cacheLookups := [], cacheWrites := [] } :=
  c3_malformed_line_yields_400 (str "GET\r\n") (fun _ => none) (fun _ => none)
    (fun _ => []) true (by decide) (by decide)

/-- C4 counterexample: for a concrete cache-miss GET whose upstream
response was fully read, a cache-write failure makes the client receive
`HTTP/1.1 500 Internal Server Error` — not the already-fetched origin
bytes. -/
theorem c4_counterexample :
    (handle_client (str "GET http://example.test/a.html HTTP/1.1\r\nHost: example.test\r\n\r\n")
        (fun _ => none) (fun _ => some (str "93.184.216.34"))
        (fun _ => str "HTTP/1.0 200 OK\r\n\r\n<html>hi</html>") false).toClient
      = [SERVER_ERROR] ∧
    (handle_client (str "GET http://example.test/a.html HTTP/1.1\r\nHost: example.test\r\n\r\n")
        (fun _ => none) (fun _ => some (str "93.184.216.34"))
        (fun _ => str "HTTP/1.0 200 OK\r\n\r\n<html>hi</html>") false).toClient
      ≠ [str "HTTP/1.0 200 OK\r\n\r\n<html>hi</html>"] := by decide

/-- C4 (amended): a failure while writing the cache entry of a cache-miss
GET *does* abort delivery: the catch-all handler sends
`HTTP/1.1 500 Internal Server Error` to the client instead of the
already-fetched origin bytes, and no cache entry is recorded. -/
theorem c4_cache_write_failure_sends_500
    (request : Bytes) (cache : Bytes → Option Bytes) (dns : Bytes → Option Bytes)
    (origin : Bytes → Bytes) (m u p ip : Bytes)
    (hreq : request ≠ []) (hp : pySplitWs (firstLineOf request) = [m, u, p])
    (hGet : upperB m = str "GET")
    (hmiss : cache (sanitize_filename (stripSlash u)) = none)
    (hdns : dns (resolvedHost (stripSlash u)) = some ip) :
    (handle_client request cache dns origin false).toClient = [SERVER_ERROR] ∧
    (handle_client request cache dns origin false).originRequests.length = 1 ∧
    (handle_client request cache dns origin false).cacheWrites = [] := by
  rw [handle_client_run request cache dns origin false m u p hreq hp,
      handleParsed_forward_get_wfail m u request cache dns origin ip hGet hmiss hdns]
  exact ⟨rfl, rfl, rfl⟩

/-- C4 witness: the amended behaviour evaluated on a concrete request. -/
theorem c4_witness :
    (handle_client (str "GET http://h/p HTTP/1.1\r\n\r\n") (fun _ => none)
        (fun _ => some (str "1.2.3.4")) (fun _ => str "RESP") false).toClient
      = [SERVER_ERROR] ∧
    (handle_client (str "GET http://h/p HTTP/1.1\r\n\r\n") (fun _ => none)
        (fun _ => some (str "1.2.3.4")) (fun _ => str "RESP") false).originRequests.length = 1 ∧
    (handle_client (str "GET http://h/p HTTP/1.1\r\n\r\n") (fun _ => none)
        (fun _ => some (str "1.2.3.4")) (fun _ => str "RESP") false).cacheWrites = [] :=
  c4_cache_write_failure_sends_500 (str "GET http://h/p HTTP/1.1\r\n\r\n")
    (fun _ => none) (fun _ => some (str "1.2.3.4")) (fun _ => str "RESP")
    (str "GET") (str "http://h/p") (str "HTTP/1.1") (str "1.2.3.4")
    (by decide) (by decide) (by decide) (by decide) (by decide)

end ProxyModel

namespace ProxyModel

/-- The outbound request built by the proxy, written declaratively:
rewritten request line with a hardcoded `HTTP/1.1`, the kept inbound
header lines in order, the three appended headers, a blank line, and the
POST body when the method is POST. -/
theorem buildOutbound_spec (m path host : Bytes) (headers : List Bytes) (request : Bytes) :
    buildOutbound m path host headers request =
      (m ++ str " " ++ path ++ str " HTTP/1.1\r\n")
      ++ ((headers.filter keepHeader).map (fun h => h ++ crlf)).flatten
      ++ (str "Host: " ++ host ++ crlf)
      ++ str "Connection: close\r\n"
      ++ str "User-Agent: PythonProxy/1.0\r\n"
      ++ crlf
      ++ (if upperB m = str "POST" then postBodyOf request else []) := by
  simp only [buildOutbound]
  rw [foldl_keep]
  by_cases hP : upperB m = str "POST"
  · rw [if_pos hP, if_pos hP]
    simp [List.append_assoc]
  · rw [if_neg hP, if_neg hP]
    simp [List.append_assoc]

/-- C5 counterexample: a client sending protocol version `HTTP/1.0` still
produces an outbound request line ending in `HTTP/1.1` — the version is
hardcoded, not copied from the client's request line. -/
theorem c5_counterexample :
    (pySplitWs (firstLineOf (str "GET http://h/p HTTP/1.0\r\n\r\n"))).getD 2 []
        = str "HTTP/1.0" ∧
    firstLineOf ((handle_client (str "GET http://h/p HTTP/1.0\r\n\r\n") (fun _ => none)
        (fun _ => some (str "1.2.3.4")) (fun _ => str "X") true).originRequests.headD [])
        = str "GET /p HTTP/1.1" ∧
    str "GET /p HTTP/1.1" ≠ str "GET /p HTTP/1.0" := by decide

/-- C5 (amended): for every forwarded request the outbound request line is
`<method> <path> HTTP/1.1` — the protocol version is the constant
`HTTP/1.1`, independent of the version token the client sent. -/
theorem c5_outbound_line_hardcodes_http11
    (request : Bytes) (cache : Bytes → Option Bytes) (dns : Bytes → Option Bytes)
    (origin : Bytes → Bytes) (wk : Bool) (m u p ip : Bytes)
    (hreq : request ≠ []) (hp : pySplitWs (firstLineOf request) = [m, u, p])
    (hmiss : (if upperB m = str "GET"
              then cache (sanitize_filename (stripSlash u)) else none) = none)
    (hdns : dns (resolvedHost (stripSlash u)) = some ip) :
    ∃ rest, (handle_client request cache dns origin wk).originRequests =
      [m ++ str " " ++ resolvedPath (stripSlash u) ++ str " HTTP/1.1\r\n" ++ rest] := by
  refine ⟨(((headerLinesOf request).filter keepHeader).map (fun h => h ++ crlf)).flatten
      ++ (str "Host: " ++ resolvedHost (stripSlash u) ++ crlf)
      ++ str "Connection: close\r\n"
      ++ str "User-Agent: PythonProxy/1.0\r\n"
      ++ crlf
      ++ (if upperB m = str "POST" then postBodyOf request else []), ?_⟩
  rw [handle_client_run request cache dns origin wk m u p hreq hp]
  by_cases hGet : upperB m = str "GET"
  · have hmiss' : cache (sanitize_filename (stripSlash u)) = none := by
      rwa [if_pos hGet] at hmiss
    cases wk
    · rw [handleParsed_forward_get_wfail m u request cache dns origin ip hGet hmiss' hdns,
          buildOutbound_spec]
      simp [List.append_assoc]
    · rw [handleParsed_forward_get m u request cache dns origin ip hGet hmiss' hdns,
          buildOutbound_spec]
      simp [List.append_assoc]
  · rw [handleParsed_forward_nonget m u request cache dns origin wk ip hGet hdns,
        buildOutbound_spec]
    simp [List.append_assoc]

/-- C5 witness: the amended request-line law evaluated on a concrete
HTTP/1.0 request. -/
theorem c5_witness :
    ∃ rest, (handle_client (str "GET http://h/p HTTP/1.0\r\n\r\n") (fun _ => none)
        (fun _ => some (str "1.2.3.4")) (fun _ => str "X") true).originRequests =
      [str "GET" ++ str " " ++ resolvedPath (stripSlash (str "http://h/p"))
        ++ str " HTTP/1.1\r\n" ++ rest] :=
  c5_outbound_line_hardcodes_http11 (str "GET http://h/p HTTP/1.0\r\n\r\n")
    (fun _ => none) (fun _ => some (str "1.2.3.4")) (fun _ => str "X") true
    (str "GET") (str "http://h/p") (str "HTTP/1.0") (str "1.2.3.4")
    (by decide) (by decide) (by decide) (by decide)

/-- C6: for every forwarded request, every inbound header line is
forwarded verbatim in order except the lines that case-insensitively start
with `proxy-connection` or `connection`, and exactly `Host: <host>`,
`Connection: close` and the fixed `User-Agent: PythonProxy/1.0` are
appended after the forwarded headers (followed by the blank line and, for
POST, the body). -/
theorem c6_header_forwarding
    (request : Bytes) (cache : Bytes → Option Bytes) (dns : Bytes → Option Bytes)
    (origin : Bytes → Bytes) (wk : Bool) (m u p ip : Bytes)
    (hreq : request ≠ []) (hp : pySplitWs (firstLineOf request) = [m, u, p])
    (hmiss : (if upperB m = str "GET"
              then cache (sanitize_filename (stripSlash u)) else none) = none)
    (hdns : dns (resolvedHost (stripSlash u)) = some ip) :
    (handle_client request cache dns origin wk).originRequests =
      [ (m ++ str " " ++ resolvedPath (stripSlash u) ++ str " HTTP/1.1\r\n")
        ++ (((headerLinesOf request).filter keepHeader).map (fun h => h ++ crlf)).flatten
        ++ (str "Host: " ++ resolvedHost (stripSlash u) ++ crlf)
        ++ str "Connection: close\r\n"
        ++ str "User-Agent: PythonProxy/1.0\r\n"
        ++ crlf
        ++ (if upperB m = str "POST" then postBodyOf request else []) ] := by
  rw [handle_client_run request cache dns origin wk m u p hreq hp]
  by_cases hGet : upperB m = str "GET"
  · have hmiss' : cache (sanitize_filename (stripSlash u)) = none := by
      rwa [if_pos hGet] at hmiss
    cases wk
    · rw [handleParsed_forward_get_wfail m u request cache dns origin ip hGet hmiss' hdns,
          buildOutbound_spec]
    · rw [handleParsed_forward_get m u request cache dns origin ip hGet hmiss' hdns,
          buildOutbound_spec]
  · rw [handleParsed_forward_nonget m u request cache dns origin wk ip hGet hdns,
        buildOutbound_spec]

/-- C6 witness: the header-forwarding law evaluated on a concrete request
carrying a `Connection: keep-alive` header (which is dropped). -/
theorem c6_witness :
    (handle_client (str "GET http://h/p HTTP/1.1\r\nAccept: */*\r\nConnection: keep-alive\r\n\r\n")
        (fun _ => none) (fun _ => some (str "1.2.3.4")) (fun _ => str "X") true).originRequests =
      [ (str "GET" ++ str " "
          ++ resolvedPath (stripSlash (str "http://h/p")) ++ str " HTTP/1.1\r\n")
        ++ (((headerLinesOf
              (str "GET http://h/p HTTP/1.1\r\nAccept: */*\r\nConnection: keep-alive\r\n\r\n")).filter
                keepHeader).map (fun h => h ++ crlf)).flatten
        ++ (str "Host: " ++ resolvedHost (stripSlash (str "http://h/p")) ++ crlf)
        ++ str "Connection: close\r\n"
        ++ str "User-Agent: PythonProxy/1.0\r\n"
        ++ crlf
        ++ (if upperB (str "GET") = str "POST"
            then postBodyOf (str "GET http://h/p HTTP/1.1\r\nAccept: */*\r\nConnection: keep-alive\r\n\r\n")
            else []) ] :=
  c6_header_forwarding
    (str "GET http://h/p HTTP/1.1\r\nAccept: */*\r\nConnection: keep-alive\r\n\r\n")
    (fun _ => none) (fun _ => some (str "1.2.3.4")) (fun _ => str "X") true
    (str "GET") (str "http://h/p") (str "HTTP/1.1") (str "1.2.3.4")
    (by decide) (by decide) (by decide) (by decide)

end ProxyModel

namespace ProxyModel

/-- C7: a well-formed cache-miss request whose host fails DNS resolution
draws exactly `HTTP/1.1 502 Bad Gateway`; exactly one resolution is
attempted (no retry), no origin connection is opened and no cache entry is
written. -/
theorem c7_dns_failure_yields_502
    (request : Bytes) (cache : Bytes → Option Bytes) (dns : Bytes → Option Bytes)
    (origin : Bytes → Bytes) (wk : Bool) (m u p : Bytes)
    (hreq : request ≠ []) (hp : pySplitWs (firstLineOf request) = [m, u, p])
    (hmiss : (if upperB m = str "GET"
              then cache (sanitize_filename (stripSlash u)) else none) = none)
    (hdns : dns (resolvedHost (stripSlash u)) = none) :
    (handle_client request cache dns origin wk).toClient = [BAD_GATEWAY] ∧
    (handle_client request cache dns origin wk).dnsQueries = [resolvedHost (stripSlash u)] ∧
    (handle_client request cache dns origin wk).originRequests = [] ∧
    (handle_client request cache dns origin wk).cacheWrites = [] := by
  rw [handle_client_run request cache dns origin wk m u p hreq hp,
      handleParsed_dns_fail m u request cache dns origin wk hmiss hdns]
  exact ⟨rfl, rfl, rfl, rfl⟩

/-- C7 witness: a GET to a host with no DNS record yields the 502 response
and no cache file. -/
theorem c7_witness :
    (handle_client (str "GET http://nohost.invalid/ HTTP/1.1\r\n\r\n") (fun _ => none)
        (fun _ => none) (fun _ => str "X") true).toClient = [BAD_GATEWAY] ∧
    (handle_client (str "GET http://nohost.invalid/ HTTP/1.1\r\n\r\n") (fun _ => none)
        (fun _ => none) (fun _ => str "X") true).dnsQueries
        = [resolvedHost (stripSlash (str "http://nohost.invalid/"))] ∧
    (handle_client (str "GET http://nohost.invalid/ HTTP/1.1\r\n\r\n") (fun _ => none)
        (fun _ => none) (fun _ => str "X") true).originRequests = [] ∧
    (handle_client (str "GET http://nohost.invalid/ HTTP/1.1\r\n\r\n") (fun _ => none)
        (fun _ => none) (fun _ => str "X") true).cacheWrites = [] :=
  c7_dns_failure_yields_502 (str "GET http://nohost.invalid/ HTTP/1.1\r\n\r\n")
    (fun _ => none) (fun _ => none) (fun _ => str "X") true
    (str "GET") (str "http://nohost.invalid/") (str "HTTP/1.1")
    (by decide) (by decide) (by decide) (by decide)

/-- C8 counterexample: the method token `get` is not the string `GET`, yet
the request is cached (the code compares `method.upper()`), so the claim
read literally — no cache write for any method other than `GET` — fails. -/
theorem c8_counterexample :
    (pySplitWs (firstLineOf (str "get http://h/p HTTP/1.1\r\n\r\n"))).getD 0 []
        = str "get" ∧
    str "get" ≠ str "GET" ∧
    (handle_client (str "get http://h/p HTTP/1.1\r\n\r\n") (fun _ => none)
        (fun _ => some (str "1.2.3.4")) (fun _ => str "X") true).cacheWrites
        = [(str "http___h_p", str "X")] := by decide

/-- C8 (amended): a request whose method does not equal `GET` after ASCII
uppercasing (in particular every POST) never writes a cache entry,
regardless of the upstream response; the cache state is unchanged at every
key. -/
theorem c8_non_get_leaves_cache_unchanged
    (request : Bytes) (cache : Bytes → Option Bytes) (dns : Bytes → Option Bytes)
    (origin : Bytes → Bytes) (wk : Bool) (m u p : Bytes)
    (hreq : request ≠ []) (hp : pySplitWs (firstLineOf request) = [m, u, p])
    (hnot : upperB m ≠ str "GET") :
    (handle_client request cache dns origin wk).cacheWrites = [] ∧
    ∀ k, applyWrites cache (handle_client request cache dns origin wk).cacheWrites k
          = cache k := by
  rw [handle_client_run request cache dns origin wk m u p hreq hp]
  cases hd : dns (resolvedHost (stripSlash u)) with
  | none =>
      rw [handleParsed_dns_fail m u request cache dns origin wk (by rw [if_neg hnot]) hd]
      exact ⟨rfl, fun k => rfl⟩
  | some ip =>
      rw [handleParsed_forward_nonget m u request cache dns origin wk ip hnot hd]
      exact ⟨rfl, fun k => rfl⟩

/-- C8 witness: a POST writes nothing and leaves the cache entry of its
own key unchanged. -/
theorem c8_witness :
    (handle_client (str "POST http://h/p HTTP/1.1\r\n\r\nDATA") (fun _ => none)
        (fun _ => some (str "1.2.3.4")) (fun _ => str "X") true).cacheWrites = [] ∧
    applyWrites (fun _ => none)
        (handle_client (str "POST http://h/p HTTP/1.1\r\n\r\nDATA") (fun _ => none)
          (fun _ => some (str "1.2.3.4")) (fun _ => str "X") true).cacheWrites
        (str "http___h_p") = (fun _ => (none : Option Bytes)) (str "http___h_p") :=
  ⟨(c8_non_get_leaves_cache_unchanged (str "POST http://h/p HTTP/1.1\r\n\r\nDATA")
      (fun _ => none) (fun _ => some (str "1.2.3.4")) (fun _ => str "X") true
      (str "POST") (str "http://h/p") (str "HTTP/1.1")
      (by decide) (by decide) (by decide)).1,
   (c8_non_get_leaves_cache_unchanged (str "POST http://h/p HTTP/1.1\r\n\r\nDATA")
      (fun _ => none) (fun _ => some (str "1.2.3.4")) (fun _ => str "X") true
      (str "POST") (str "http://h/p") (str "HTTP/1.1")
      (by decide) (by decide) (by decide)).2 (str "http___h_p")⟩

end ProxyModel

namespace ProxyModel

/-- C9 counterexample: `sanitize_filename` also replaces the `:` of
`http://example.test/a.html`, so the first call of the concrete scenario
stores under key `http___example.test_a.html`, not under the claimed key
`http:__example.test_a.html`. -/
theorem c9_counterexample :
    (handle_client (str "GET http://example.test/a.html HTTP/1.1\r\nHost: example.test\r\n\r\n")
        (fun _ => none)
        (fun h => if h = str "example.test" then some (str "93.184.216.34") else none)
        (fun _ => str "HTTP/1.0 200 OK\r\n\r\n<html>hi</html>") true).cacheWrites.map Prod.fst
      = [str "http___example.test_a.html"] ∧
    str "http___example.test_a.html" ≠ str "http:__example.test_a.html" := by decide

/-- C9 (amended): for the concrete request
`GET http://example.test/a.html HTTP/1.1` against an origin answering
`HTTP/1.0 200 OK` with body `<html>hi</html>`, the first call opens exactly
one origin connection and stores the full response under the key
`http___example.test_a.html`; the second identical call returns the same
bytes from the cache with no DNS query and no origin connection. -/
theorem c9_concrete_scenario :
    (handle_client (str "GET http://example.test/a.html HTTP/1.1\r\nHost: example.test\r\n\r\n")
        (fun _ => none)
        (fun h => if h = str "example.test" then some (str "93.184.216.34") else none)
        (fun _ => str "HTTP/1.0 200 OK\r\n\r\n<html>hi</html>") true).originRequests.length = 1 ∧
    (handle_client (str "GET http://example.test/a.html HTTP/1.1\r\nHost: example.test\r\n\r\n")
        (fun _ => none)
        (fun h => if h = str "example.test" then some (str "93.184.216.34") else none)
        (fun _ => str "HTTP/1.0 200 OK\r\n\r\n<html>hi</html>") true).cacheWrites
      = [(str "http___example.test_a.html", str "HTTP/1.0 200 OK\r\n\r\n<html>hi</html>")] ∧
    (handle_client (str "GET http://example.test/a.html HTTP/1.1\r\nHost: example.test\r\n\r\n")
        (fun _ => none)
        (fun h => if h = str "example.test" then some (str "93.184.216.34") else none)
        (fun _ => str "HTTP/1.0 200 OK\r\n\r\n<html>hi</html>") true).toClient
      = [str "HTTP/1.0 200 OK\r\n\r\n<html>hi</html>"] ∧
    (handle_client (str "GET http://example.test/a.html HTTP/1.1\r\nHost: example.test\r\n\r\n")
        (applyWrites (fun _ => none)
          (handle_client (str "GET http://example.test/a.html HTTP/1.1\r\nHost: example.test\r\n\r\n")
            (fun _ => none)
            (fun h => if h = str "example.test" then some (str "93.184.216.34") else none)
            (fun _ => str "HTTP/1.0 200 OK\r\n\r\n<html>hi</html>") true).cacheWrites)
        (fun h => if h = str "example.test" then some (str "93.184.216.34") else none)
        (fun _ => str "HTTP/1.0 200 OK\r\n\r\n<html>hi</html>") true).toClient
      = [str "HTTP/1.0 200 OK\r\n\r\n<html>hi</html>"] ∧
    (handle_client (str "GET http://example.test/a.html HTTP/1.1\r\nHost: example.test\r\n\r\n")
        (applyWrites (fun _ => none)
          (handle_client (str "GET http://example.test/a.html HTTP/1.1\r\nHost: example.test\r\n\r\n")
            (fun _ => none)
            (fun h => if h = str "example.test" then some (str "93.184.216.34") else none)
            (fun _ => str "HTTP/1.0 200 OK\r\n\r\n<html>hi</html>") true).cacheWrites)
        (fun h => if h = str "example.test" then some (str "93.184.216.34") else none)
        (fun _ => str "HTTP/1.0 200 OK\r\n\r\n<html>hi</html>") true).originRequests = [] ∧
    (handle_client (str "GET http://example.test/a.html HTTP/1.1\r\nHost: example.test\r\n\r\n")
        (applyWrites (fun _ => none)
          (handle_client (str "GET http://example.test/a.html HTTP/1.1\r\nHost: example.test\r\n\r\n")
            (fun _ => none)
            (fun h => if h = str "example.test" then some (str "93.184.216.34") else none)
            (fun _ => str "HTTP/1.0 200 OK\r\n\r\n<html>hi</html>") true).cacheWrites)
        (fun h => if h = str "example.test" then some (str "93.184.216.34") else none)
        (fun _ => str "HTTP/1.0 200 OK\r\n\r\n<html>hi</html>") true).dnsQueries = [] := by
  decide

/-- C10: the whole outcome of one client connection — the parsed request,
derived cache key, forwarded outbound request and everything sent back —
depends only on the first `recv` chunk of at most 8192 bytes: two client
inputs agreeing on their first 8192 bytes are handled identically, so
bytes beyond the first chunk are never read or forwarded. -/
theorem c10_single_chunk_determinism
    (in1 in2 : Bytes) (cache : Bytes → Option Bytes) (dns : Bytes → Option Bytes)
    (origin : Bytes → Bytes) (wk : Bool)
    (h : in1.take 8192 = in2.take 8192) :
    handle_conn in1 cache dns origin wk = handle_conn in2 cache dns origin wk := by
  unfold handle_conn
  rw [h]

/-- C10 witness: two inputs that differ only beyond the 8192-byte chunk
boundary are handled identically. -/
theorem c10_witness :
    handle_conn (List.replicate 8192 'a' ++ str "GET")
        (fun _ => none) (fun _ => none) (fun _ => []) true
      = handle_conn (List.replicate 8192 'a' ++ str "POST")
        (fun _ => none) (fun _ => none) (fun _ => []) true :=
  c10_single_chunk_determinism (List.replicate 8192 'a' ++ str "GET")
    (List.replicate 8192 'a' ++ str "POST")
    (fun _ => none) (fun _ => none) (fun _ => []) true
    (by
      have h : ∀ t : Bytes, (List.replicate 8192 'a' ++ t).take 8192
          = List.replicate 8192 'a' := by
        intro t
        rw [List.take_append_eq_append_take, List.length_replicate, Nat.sub_self,
            List.take_zero, List.append_nil, List.take_replicate, Nat.min_self]
      rw [h, h])

end ProxyModel
